import Mathlib

/-!
Shallow embedding of the C-ITS ITS-S station implementation (src/itss.py):
the identity state (private key, enrollment credential EC, authorization
ticket AT), persistence (store and load), request encoding and signing for
enrollment and authorization, the three-tier certificate resolver, and the
inbound datagram handler of the G5 simulator.

External collaborators (the compiled ASN.1 codec, the certificate class, the
cryptography library) are abstracted as function parameters; helpers of the
repository that are not under src/ (encode_der_length, encode_der_SEQUENCE,
the certificate constructor, SecureMessage.verify) are modelled from the spec
where noted. Python exceptions are embedded as Except or as an Option Err
error component; a bare return value means the call returned normally.
-/

namespace CITS

/-- Byte strings are lists of naturals, each conceptually below 256. -/
abbrev Bytes := List Nat

/-- ASCII bytes of a string literal, for the byte-string constants of the source. -/
def strBytes (s : String) : Bytes := s.toList.map Char.toNat

/-- Big-endian base-256 digits of a natural number (empty for zero). -/
def natBytesBE (n : Nat) : Bytes :=
  if h : n = 0 then []
  else natBytesBE (n / 256) ++ [n % 256]
decreasing_by exact Nat.div_lt_self (Nat.pos_of_ne_zero h) (by decide)

/-- Reassemble a natural number from big-endian base-256 digits. -/
def bytesToNatBE (bs : Bytes) : Nat := bs.foldl (fun acc b => acc * 256 + b) 0

/-- Modelled from the spec: the CodecLayer helper itss.encode_der_length of the
repository (not under src/), producing a DER definite-length prefix: short form
for lengths below 128, otherwise a count byte followed by big-endian digits. -/
def encode_der_length (n : Nat) : Bytes :=
  if n < 128 then [n]
  else (128 + (natBytesBE n).length) :: natBytesBE n

/-- Decoder for the DER definite-length prefix, used to state that the
length-prefixed blocks produced by the encoders are recoverable. -/
def decode_der_length : Bytes → Option (Nat × Bytes)
  | [] => none
  | b :: rest =>
    if b < 128 then some (b, rest)
    else if h : b - 128 ≤ rest.length then
      some (bytesToNatBE (rest.take (b - 128)), rest.drop (b - 128))
    else none

/-- Modelled from the spec: the CodecLayer helper itss.encode_der_SEQUENCE of the
repository (not under src/), wrapping a byte string as a top-level DER sequence:
tag 0x30, length prefix, contents. -/
def encode_der_SEQUENCE (b : Bytes) : Bytes :=
  48 :: (encode_der_length b.length ++ b)

/-- A certificate as the station sees it: a lookup digest and raw encoded bytes
(the external CITS103097v121Certificate object, reduced to the two fields the
station reads: Digest and Data). -/
structure Certificate where
  Digest : Bytes
  Data : Bytes
deriving DecidableEq, Repr

/-- A software elliptic-curve private key, abstracted to its scalar. -/
structure ECPrivateKey where
  d : Nat
deriving DecidableEq, Repr

/-- The Python exceptions that the embedded operations can raise. -/
inductive Err where
  | runtimeError (msg : String)
  | assertionError
  | fileNotFound
  | attributeError
  | opensslError
  | parseError
  | networkError
  | verifyError
deriving DecidableEq, Repr

/-- The mutable state of an ITSS object: the private key, the enrollment
credential EC, the authorization ticket AT, the in-memory certificate dict
Certs, the optional HSM engine handle, and the P11URI set on the HSM load path. -/
structure ITSSState where
  PrivateKey : Option ECPrivateKey
  EC : Option Certificate
  AT : Option Certificate
  Certs : List (Bytes × Certificate)
  Engine : Option Unit
  P11URI : Option String
deriving Repr

/-- The persisted files of the identity directory: itss.key, itss.ec, itss.at;
a field holds the raw file content, none meaning the file does not exist. -/
structure FS where
  keyFile : Option Bytes
  ecFile : Option Bytes
  atFile : Option Bytes
deriving DecidableEq, Repr

/-- Association lookup for the Python dicts (Certs, the certs directory). -/
def dict_find {α : Type} [DecidableEq α] {β : Type} : List (α × β) → α → Option β
  | [], _ => none
  | (k2, v) :: rest, k => if k2 = k then some v else dict_find rest k

/-- Association insert or overwrite; the newest binding shadows older ones. -/
def dict_insert {α β : Type} (d : List (α × β)) (k : α) (v : β) : List (α × β) :=
  (k, v) :: d

/-- Modelled from the spec: PrivateKey.private_bytes of the external crypto
library, the passphrase-protected DER serialization of the key, abstracted to
an injective byte encoding of the scalar. -/
def private_bytes (k : ECPrivateKey) : Bytes := natBytesBE k.d

/-- ITSS.generate_private_key: with no engine, install a fresh software key and
then clear EC and AT; with an HSM engine configured, raise RuntimeError before
reaching the clearing statements. The fresh key drawn by the crypto library is
passed in as freshKey. Result: the raised exception if any, and the state. -/
def generate_private_key (s : ITSSState) (freshKey : ECPrivateKey) :
    Option Err × ITSSState :=
  match s.Engine with
  | none =>
    (none, { s with PrivateKey := some freshKey, EC := none, AT := none })
  | some _ =>
    (some (.runtimeError "Not implemented yet!"), s)

/-- The key-writing step of ITSS.store: nothing is saved on HSM; otherwise the
serialized private key is written to itss.key (calling private_bytes on an
absent key raises AttributeError, as None.private_bytes would). -/
def store_key_step (s : ITSSState) (fs : FS) : Except Err FS :=
  match s.Engine with
  | some _ => .ok fs
  | none =>
    match s.PrivateKey with
    | none => .error .attributeError
    | some k => .ok { fs with keyFile := some (private_bytes k) }

/-- The EC step of ITSS.store: write EC.Data to itss.ec when EC is set, else
os.unlink itss.ec, which raises FileNotFoundError when the file is absent. -/
def store_ec_step (s : ITSSState) (fs : FS) : Except Err FS :=
  match s.EC with
  | some ec => .ok { fs with ecFile := some ec.Data }
  | none =>
    match fs.ecFile with
    | some _ => .ok { fs with ecFile := none }
    | none => .error .fileNotFound

/-- The AT step of ITSS.store: write AT.Data to itss.at when AT is set, else
os.unlink itss.at, which raises FileNotFoundError when the file is absent. -/
def store_at_step (s : ITSSState) (fs : FS) : Except Err FS :=
  match s.AT with
  | some at0 => .ok { fs with atFile := some at0.Data }
  | none =>
    match fs.atFile with
    | some _ => .ok { fs with atFile := none }
    | none => .error .fileNotFound

/-- ITSS.store: the key step, then the EC step, then the AT step, in source
order; an exception aborts the remaining steps and leaves the files written so
far in place. Result: the raised exception if any, and the file system. -/
def store (s : ITSSState) (fs : FS) : Option Err × FS :=
  match store_key_step s fs with
  | .error e => (some e, fs)
  | .ok fs1 =>
    match store_ec_step s fs1 with
    | .error e => (some e, fs1)
    | .ok fs2 =>
      match store_at_step s fs2 with
      | .error e => (some e, fs2)
      | .ok fs3 => (none, fs3)

/-- The AT-reading tail of ITSS.load: a missing itss.at file is passed over
(FileNotFoundError is caught), a present one is fed to the certificate
constructor, whose failure propagates. parseCert models the external
CITS103097v121Certificate constructor, none meaning it raises. -/
def load_at_step (s : ITSSState) (fs : FS)
    (parseCert : Bytes → Option Certificate) : Except Err (Bool × ITSSState) :=
  match fs.atFile with
  | none => .ok (true, s)
  | some atraw =>
    match parseCert atraw with
    | none => .error .parseError
    | some c => .ok (true, { s with AT := some c })

/-- The EC-reading part of ITSS.load, then the AT part: a missing itss.ec file
is passed over, a present one is fed to the certificate constructor, whose
failure propagates. -/
def load_ec_step (s : ITSSState) (fs : FS)
    (parseCert : Bytes → Option Certificate) : Except Err (Bool × ITSSState) :=
  match fs.ecFile with
  | none => load_at_step s fs parseCert
  | some ecraw =>
    match parseCert ecraw with
    | none => .error .parseError
    | some c => load_at_step { s with EC := some c } fs parseCert

/-- ITSS.load: assert that PrivateKey, EC and AT are unset; on HSM resolve the
key through the engine (hsmKey, none meaning openssl_assert fails and raises);
otherwise read and decode itss.key under a bare except that turns any failure,
a missing file included, into the return value False. On success continue with
the EC and AT files and return True. decodeKey models load_der_private_key,
none meaning it raises (caught here). -/
def load (s : ITSSState) (fs : FS) (hsmKey : Option ECPrivateKey)
    (decodeKey : Bytes → Option ECPrivateKey)
    (parseCert : Bytes → Option Certificate) : Except Err (Bool × ITSSState) :=
  if s.PrivateKey ≠ none then .error .assertionError
  else if s.EC ≠ none then .error .assertionError
  else if s.AT ≠ none then .error .assertionError
  else
    match s.Engine with
    | some _ =>
      match hsmKey with
      | none => .error .opensslError
      | some k =>
        load_ec_step
          { s with P11URI := some "pkcs11:object=test-key;type=private",
                   PrivateKey := some k } fs parseCert
    | none =>
      match fs.keyFile with
      | none => .ok (false, s)
      | some raw =>
        match decodeKey raw with
        | none => .ok (false, s)
        | some k => load_ec_step { s with PrivateKey := some k } fs parseCert

/-- The signerEnrolRequest (and signerAuthRequest) record: signer type, digest
and identification string, as in the request dictionaries of the source. -/
structure SignerIdentifier where
  type : Nat
  digest : Bytes
  id : Bytes
deriving DecidableEq, Repr

/-- The verificationKey public point of the enrollment request, raw affine
coordinates. -/
structure PublicKeyXY where
  x : Nat
  y : Nat
deriving DecidableEq, Repr

/-- The enrolCertRequest record of ITSS.enroll, with the fields that carry data
(the fixed tag constants of the nested dictionary are set by enroll_build). -/
structure EnrolCertRequest where
  versionAndType : Nat
  requestTime : Nat
  subjectType : Nat
  eaId : String
  permittedSubjectTypes : Nat
  expiration : Nat
  verificationKey : PublicKeyXY
  responseEncryptionKeyX : Nat
deriving DecidableEq, Repr

/-- The EnrolmentRequest dictionary built by ITSS.enroll, before the signature
field is added. -/
structure EnrolmentRequest where
  signerEnrolRequest : SignerIdentifier
  enrolCertRequest : EnrolCertRequest
deriving DecidableEq, Repr

/-- ITSS.enroll, request-building part: the dictionary literal of the source,
with requestTime the seconds since the 2004-01-01 epoch, the verification key
the public point of the station key, and responseEncryptionX the x coordinate
of the one-time response-encryption key. The source computes the local variable
expiration as requestTime + 3600 and then fills the expiration field with
requestTime (line 125). -/
def enroll_build (requestTime : Nat) (verification_x verification_y : Nat)
    (responseEncryptionX : Nat) : EnrolmentRequest :=
  let expiration := requestTime + 3600
  { signerEnrolRequest :=
      { type := 3
        digest := strBytes "12345678"
        id := strBytes "This is the identification of the signer" }
    enrolCertRequest :=
      { versionAndType := 2
        requestTime := requestTime
        subjectType := 3
        eaId := "EAName"
        permittedSubjectTypes := 0
        expiration := requestTime
        verificationKey := { x := verification_x, y := verification_y }
        responseEncryptionKeyX := responseEncryptionX } }

/-- An ECDSA signature as the pair of raw components decoded from the DSS
encoding. -/
structure Sig where
  r : Nat
  s : Nat
deriving DecidableEq, Repr

/-- The tagging idiom of the source: struct.pack 0xTT followed by the codec
output with its leading byte dropped, so the context tag replaces the first
byte of the encoded block. -/
def tag_block (tag : Nat) (encoded : Bytes) : Bytes :=
  tag :: encoded.drop 1

/-- ITSS.enroll, encoding and signing part: encoded_er is the 0xa0-tagged codec
encoding of the signer identifier followed by the 0xa1-tagged codec encoding of
the to-be-signed enrollment payload; that value is passed to PrivateKey.sign;
the 0xa2-tagged encoded signature is appended afterwards and the whole wrapped
as a DER sequence. sid_enc and tbs_enc are the codec outputs, sign the ECDSA
signing routine, sig_enc the codec encoding of the Signature record. Result:
the bytes handed to sign, and the final request bytes. -/
def enroll_encode (sid_enc tbs_enc : Bytes) (sign : Bytes → Sig)
    (sig_enc : Sig → Bytes) : Bytes × Bytes :=
  let encoded_er := tag_block 160 sid_enc
  let encoded_er := encoded_er ++ tag_block 161 tbs_enc
  let signing_input := encoded_er
  let signature := sign encoded_er
  let encoded_er := encoded_er ++ tag_block 162 (sig_enc signature)
  (signing_input, encode_der_SEQUENCE encoded_er)

/-- ITSS.authorize, encoding and signing part: encoded_ar is the 0xa0-tagged
signer identifier, then the byte 0xa1 followed by the DER length of acr and acr
itself, where acr is the 0xa0-tagged codec encoding of the chosen
AuthCertRequest variant; that value is passed to PrivateKey.sign; the
0xa2-tagged encoded signature is appended afterwards and the whole wrapped as a
DER sequence. Result: the bytes handed to sign, and the final request bytes. -/
def authorize_encode (sid_enc acr_enc : Bytes) (sign : Bytes → Sig)
    (sig_enc : Sig → Bytes) : Bytes × Bytes :=
  let encoded_ar := tag_block 160 sid_enc
  let acr := tag_block 160 acr_enc
  let encoded_ar := encoded_ar ++ (161 :: (encode_der_length acr.length ++ acr))
  let signing_input := encoded_ar
  let signature := sign encoded_ar
  let encoded_ar := encoded_ar ++ tag_block 162 (sig_enc signature)
  (signing_input, encode_der_SEQUENCE encoded_ar)

/-- The world outside the ITSS object seen by the certificate resolver: the
certs directory on disk (digest to file bytes; the file name is the hex of the
digest, injective, so the directory is keyed by the digest itself), the AA
by-digest endpoint (none meaning the GET raises), and counters of the disk and
network operations performed. -/
structure World where
  disk : List (Bytes × Bytes)
  network : Bytes → Option Bytes
  diskReads : Nat
  diskWrites : Nat
  networkGets : Nat

/-- ITSS.store_certificate: write the certificate bytes into the certs
directory under the hex of its own digest. -/
def store_certificate (w : World) (cert : Certificate) : World :=
  { w with disk := dict_insert w.disk cert.Digest cert.Data,
           diskWrites := w.diskWrites + 1 }

/-- ITSS.get_certificate_by_digest: return the memory-cached certificate under
the digest when present, with no I/O; otherwise try the certs directory (an
unparseable file propagates the constructor failure); otherwise GET the
certificate from the AA, persist it to disk, cache it in memory and return it.
parseCert models the external certificate constructor, none meaning it raises.
Result: the certificate with the updated object state and world, or the
propagated exception. -/
def get_certificate_by_digest (parseCert : Bytes → Option Certificate)
    (s : ITSSState) (w : World) (digest : Bytes) :
    Except Err (Certificate × ITSSState × World) :=
  match dict_find s.Certs digest with
  | some cert => .ok (cert, s, w)
  | none =>
    match dict_find w.disk digest with
    | some data =>
      let w1 := { w with diskReads := w.diskReads + 1 }
      match parseCert data with
      | none => .error .parseError
      | some cert =>
        .ok (cert, { s with Certs := dict_insert s.Certs digest cert }, w1)
    | none =>
      let w1 := { w with diskReads := w.diskReads + 1,
                         networkGets := w.networkGets + 1 }
      match w1.network digest with
      | none => .error .networkError
      | some content =>
        match parseCert content with
        | none => .error .parseError
        | some cert =>
          let w2 := store_certificate w1 cert
          .ok (cert, { s with Certs := dict_insert s.Certs digest cert }, w2)

/-- An inbound secure message, reduced to what the handler reads: the payload
and the digest of the claimed signer. -/
structure SecureMessage where
  Payload : String
  SignerDigest : Bytes
deriving DecidableEq, Repr

/-- Modelled from the spec: CITS103097v121SecureMessage.verify of the
repository (not under src/), which resolves the signer certificate through the
station resolver, possibly incurring I/O, and checks the message signature
against it; checkSig abstracts the signature check. Failure at resolve or
verify propagates to the caller. -/
def secure_message_verify (parseCert : Bytes → Option Certificate)
    (checkSig : SecureMessage → Certificate → Bool) (msg : SecureMessage)
    (s : ITSSState) (w : World) : Except Err (Certificate × ITSSState × World) :=
  match get_certificate_by_digest parseCert s w msg.SignerDigest with
  | .error e => .error e
  | .ok (cert, s1, w1) =>
    if checkSig msg cert then .ok (cert, s1, w1) else .error .verifyError

/-- The unguarded body of MyG5Simulator.datagram_received: parse the datagram
as a SecureMessage (parseMsg models the envelope constructor, none meaning it
raises), verify it, and report the payload of the verified message. Any
failure is an exception of this body. -/
def process_datagram (parseMsg : Bytes → Option SecureMessage)
    (parseCert : Bytes → Option Certificate)
    (checkSig : SecureMessage → Certificate → Bool)
    (s : ITSSState) (w : World) (data : Bytes) :
    Except Err (String × ITSSState × World) :=
  match parseMsg data with
  | none => .error .parseError
  | some msg =>
    match secure_message_verify parseCert checkSig msg s w with
    | .error e => .error e
    | .ok (_cert, s1, w1) => .ok (msg.Payload, s1, w1)

/-- What one datagram delivery leaves in the log. -/
inductive LogLine where
  | receivedVerified (payload : String)
  | errorWhenProcessing
deriving DecidableEq, Repr

/-- MyG5Simulator.datagram_received: the body runs under a try that catches
every exception, prints the error and returns normally, so the handler is a
total function into plain state and log; a caught failure leaves the state as
it was. -/
def datagram_received (parseMsg : Bytes → Option SecureMessage)
    (parseCert : Bytes → Option Certificate)
    (checkSig : SecureMessage → Certificate → Bool)
    (s : ITSSState) (w : World) (data : Bytes) :
    ITSSState × World × LogLine :=
  match process_datagram parseMsg parseCert checkSig s w data with
  | .error _ => (s, w, .errorWhenProcessing)
  | .ok (payload, s1, w1) => (s1, w1, .receivedVerified payload)

/-- A sample software key. -/
def k0 : ECPrivateKey := { d := 7 }

/-- A sample certificate. -/
def c0 : Certificate := { Digest := [1, 2], Data := [9, 9, 9] }

/-- The empty software-configuration station state. -/
def sEmpty : ITSSState :=
  { PrivateKey := none, EC := none, AT := none, Certs := [],
    Engine := none, P11URI := none }

/-- A hardware-configuration state that still holds credentials. -/
def sHW : ITSSState :=
  { sEmpty with Engine := some (), PrivateKey := some k0,
                EC := some c0, AT := some c0 }

/-- A software state holding a key but no credentials. -/
def sKeyOnly : ITSSState := { sEmpty with PrivateKey := some k0 }

/-- An empty identity directory. -/
def fsEmpty : FS := { keyFile := none, ecFile := none, atFile := none }

/-- A world with one certificate file on disk and a dead network. -/
def w0 : World :=
  { disk := [([1, 2], [9, 9, 9])], network := fun _ => none,
    diskReads := 0, diskWrites := 0, networkGets := 0 }

/-- The world w0 after one disk read. -/
def w0r : World := { w0 with diskReads := 1 }

/-- A software state holding the key and both credentials. -/
def sFull : ITSSState := { sKeyOnly with EC := some c0, AT := some c0 }

/-- The empty station state after caching the sample certificate. -/
def sCached : ITSSState := { sEmpty with Certs := [([1, 2], c0)] }

/-- A sample certificate constructor: a certificate with the sample digest
carrying the given bytes. -/
def pc0 : Bytes → Option Certificate :=
  fun b => some { Digest := [1, 2], Data := b }

/-- Neither branch of the AT-reading step of load produces an assertion
failure: it returns, or propagates a certificate parse failure. -/
theorem load_at_step_no_assert (s : ITSSState) (fs : FS)
    (parseCert : Bytes → Option Certificate) :
    load_at_step s fs parseCert ≠ .error .assertionError := by
  unfold load_at_step
  split
  · simp
  · split <;> simp

/-- Neither branch of the EC-reading step of load produces an assertion
failure. -/
theorem load_ec_step_no_assert (s : ITSSState) (fs : FS)
    (parseCert : Bytes → Option Certificate) :
    load_ec_step s fs parseCert ≠ .error .assertionError := by
  unfold load_ec_step
  split
  · exact load_at_step_no_assert _ _ _
  · split
    · simp
    · exact load_at_step_no_assert _ _ _

/-- Appending one digit multiplies the big-endian value by the base and adds
the digit. -/
theorem bytesToNat_append (as : Bytes) (b : Nat) :
    bytesToNatBE (as ++ [b]) = bytesToNatBE as * 256 + b := by
  simp [bytesToNatBE, List.foldl_append]

/-- The big-endian digits of a natural number reassemble to it. -/
theorem bytesToNat_natBytes (n : Nat) : bytesToNatBE (natBytesBE n) = n := by
  induction n using Nat.strong_induction_on with
  | _ n ih =>
    unfold natBytesBE
    split
    · simp [bytesToNatBE]
      omega
    · rw [bytesToNat_append,
        ih (n / 256) (Nat.div_lt_self (Nat.pos_of_ne_zero (by assumption)) (by decide))]
      omega

/-- Reading a DER length prefix recovers the encoded length and leaves the
following bytes untouched. -/
theorem decode_encode_der_length (n : Nat) (rest : Bytes) :
    decode_der_length (encode_der_length n ++ rest) = some (n, rest) := by
  by_cases h : n < 128
  · simp [encode_der_length, decode_der_length, h]
  · have hlen : (natBytesBE n).length ≤ (natBytesBE n ++ rest).length := by
      simp [List.length_append]
    simp only [encode_der_length, if_neg h, List.cons_append, decode_der_length]
    rw [if_neg (by omega), dif_pos (by simp)]
    simp [bytesToNat_natBytes, List.take_left, List.drop_left]

/-- A fresh dict insert is found by a lookup of the same key. -/
theorem dict_find_insert {α : Type} [DecidableEq α] {β : Type}
    (d : List (α × β)) (k : α) (v : β) :
    dict_find (dict_insert d k v) k = some v := by
  simp [dict_find, dict_insert]

/-- Claim C1: the spec and the claim state that the encoded expiration field of
the enrollment request is the request time plus the 3600-second validity
window; the code computes that sum into a local variable and then encodes the
bare request time, so for every request time t the encoded expiration field is
t and not t + 3600. -/
theorem C1_enroll_expiration_is_requestTime (t vx vy rx : Nat) :
    (enroll_build t vx vy rx).enrolCertRequest.expiration = t ∧
    (enroll_build t vx vy rx).enrolCertRequest.requestTime = t ∧
    t + 3600 ≠ t := by
  refine ⟨rfl, rfl, ?_⟩
  omega

/-- Claim C4 counterexample: in the hardware configuration the RuntimeError is
raised before the clearing statements, so a state that held an EC still holds
it after generate_private_key, contradicting the unconditional-clearing claim
at this concrete input. -/
theorem C4_hw_generate_keeps_EC :
    ((generate_private_key sHW k0).2).EC = some c0 ∧
    (some c0 : Option Certificate) ≠ none := by
  exact ⟨rfl, by simp⟩

/-- Claim C4 amended: in the software-key configuration generate_private_key
returns normally and unconditionally clears EC and AT, whatever their prior
values; in the hardware configuration the call raises and the clearing is
never reached. -/
theorem C4_generate_clears_credentials_software (s : ITSSState)
    (k : ECPrivateKey) (hE : s.Engine = none) :
    ((generate_private_key s k).2).EC = none ∧
    ((generate_private_key s k).2).AT = none ∧
    ((generate_private_key s k).2).PrivateKey = some k ∧
    (generate_private_key s k).1 = none := by
  simp [generate_private_key, hE]

/-- Witness for C4: a software state holding both credentials has them cleared
by generate_private_key. -/
theorem C4_generate_clears_credentials_witness :
    ((generate_private_key sFull k0).2).EC = none ∧
    ((generate_private_key sFull k0).2).AT = none ∧
    ((generate_private_key sFull k0).2).PrivateKey = some k0 ∧
    (generate_private_key sFull k0).1 = none :=
  C4_generate_clears_credentials_software sFull k0 rfl

/-- Claim C9: with a hardware engine configured, generate_private_key raises
RuntimeError and the state is returned unchanged: PrivateKey, EC and AT all
keep their prior values. -/
theorem C9_hw_generate_raises_unchanged (s : ITSSState) (k : ECPrivateKey)
    (hE : s.Engine = some ()) :
    generate_private_key s k =
      (some (.runtimeError "Not implemented yet!"), s) := by
  simp [generate_private_key, hE]

/-- Witness for C9: the sample hardware state is untouched by the failing
generate_private_key. -/
theorem C9_hw_generate_witness :
    generate_private_key sHW k0 =
      (some (.runtimeError "Not implemented yet!"), sHW) :=
  C9_hw_generate_raises_unchanged sHW k0 rfl

/-- Claim C10: load asserts on entry that PrivateKey, EC and AT are all unset:
under that precondition no assertion failure is possible, and when any of the
three is set, load raises the assertion failure instead of restoring state. -/
theorem C10_load_asserts_precondition (s : ITSSState) (fs : FS)
    (hsmKey : Option ECPrivateKey) (decodeKey : Bytes → Option ECPrivateKey)
    (parseCert : Bytes → Option Certificate) :
    (s.PrivateKey = none ∧ s.EC = none ∧ s.AT = none →
      load s fs hsmKey decodeKey parseCert ≠ .error .assertionError) ∧
    (s.PrivateKey ≠ none ∨ s.EC ≠ none ∨ s.AT ≠ none →
      load s fs hsmKey decodeKey parseCert = .error .assertionError) := by
  constructor
  · rintro ⟨h1, h2, h3⟩
    simp only [load, h1, h2, h3]
    simp only [ne_eq, not_true_eq_false, if_false, reduceIte]
    split
    · split
      · simp
      · exact load_ec_step_no_assert _ _ _
    · split
      · simp
      · split
        · simp
        · exact load_ec_step_no_assert _ _ _
  · rintro (h | h | h)
    · simp [load, h]
    · rcases hp : s.PrivateKey with _ | k
      · simp [load, hp, h]
      · simp [load, hp]
    · rcases hp : s.PrivateKey with _ | k
      · rcases hec : s.EC with _ | c
        · simp [load, hp, hec, h]
        · simp [load, hp, hec]
      · simp [load, hp]

/-- Witness for C10: on the empty state the assertions pass, and on a state
already holding a key load fails the first assertion. -/
theorem C10_load_asserts_witness :
    (load sEmpty fsEmpty none (fun _ => none) (fun _ => none) ≠
      .error .assertionError) ∧
    (load sKeyOnly fsEmpty none (fun _ => none) (fun _ => none) =
      .error .assertionError) :=
  ⟨(C10_load_asserts_precondition sEmpty fsEmpty none (fun _ => none)
      (fun _ => none)).1 ⟨rfl, rfl, rfl⟩,
   (C10_load_asserts_precondition sKeyOnly fsEmpty none (fun _ => none)
      (fun _ => none)).2 (Or.inl (by simp [sKeyOnly, sEmpty]))⟩

/-- Claim C2 counterexample: with a decodable key file and an itss.ec file
whose bytes the certificate constructor rejects, load propagates the parse
failure past its boundary instead of returning a success or failure value, so
the claim fails at this concrete storage state. -/
theorem C2_load_raises_on_unparseable_ec :
    load sEmpty { keyFile := some [1], ecFile := some [2], atFile := none }
      none (fun _ => some k0) (fun _ => none) = .error .parseError := rfl

/-- Claim C2 amended: in the software configuration, under the entry
precondition of load, the key-loading step never raises: a missing or
undecodable key file yields the return value False; with a decoded key,
absence of the itss.ec or itss.at file is not an error and leaves that field
unset while a present and parseable file sets it; but an itss.ec or itss.at
file that is present and unparseable makes load propagate the certificate
constructor failure. -/
theorem C2_load_boundary (s : ITSSState) (fs : FS)
    (decodeKey : Bytes → Option ECPrivateKey)
    (parseCert : Bytes → Option Certificate)
    (hE : s.Engine = none) (hP : s.PrivateKey = none)
    (hEC : s.EC = none) (hAT : s.AT = none) :
    (fs.keyFile = none →
      load s fs none decodeKey parseCert = .ok (false, s)) ∧
    (∀ raw, fs.keyFile = some raw → decodeKey raw = none →
      load s fs none decodeKey parseCert = .ok (false, s)) ∧
    (∀ raw k, fs.keyFile = some raw → decodeKey raw = some k →
      fs.ecFile = none → fs.atFile = none →
      load s fs none decodeKey parseCert =
        .ok (true, { s with PrivateKey := some k })) ∧
    (∀ raw k ecraw, fs.keyFile = some raw → decodeKey raw = some k →
      fs.ecFile = some ecraw → parseCert ecraw = none →
      load s fs none decodeKey parseCert = .error .parseError) ∧
    (∀ raw k atraw, fs.keyFile = some raw → decodeKey raw = some k →
      fs.ecFile = none → fs.atFile = some atraw → parseCert atraw = none →
      load s fs none decodeKey parseCert = .error .parseError) ∧
    (∀ raw k ecraw c atraw, fs.keyFile = some raw → decodeKey raw = some k →
      fs.ecFile = some ecraw → parseCert ecraw = some c →
      fs.atFile = some atraw → parseCert atraw = none →
      load s fs none decodeKey parseCert = .error .parseError) ∧
    (∀ raw k ecraw c, fs.keyFile = some raw → decodeKey raw = some k →
      fs.ecFile = some ecraw → parseCert ecraw = some c → fs.atFile = none →
      load s fs none decodeKey parseCert =
        .ok (true, { s with PrivateKey := some k, EC := some c })) ∧
    (∀ raw k atraw c, fs.keyFile = some raw → decodeKey raw = some k →
      fs.ecFile = none → fs.atFile = some atraw → parseCert atraw = some c →
      load s fs none decodeKey parseCert =
        .ok (true, { s with PrivateKey := some k, AT := some c })) ∧
    (∀ raw k ecraw c1 atraw c2, fs.keyFile = some raw → decodeKey raw = some k →
      fs.ecFile = some ecraw → parseCert ecraw = some c1 →
      fs.atFile = some atraw → parseCert atraw = some c2 →
      load s fs none decodeKey parseCert =
        .ok (true, { s with PrivateKey := some k, EC := some c1,
                            AT := some c2 })) := by
  refine ⟨?_, ?_, ?_, ?_, ?_, ?_, ?_, ?_, ?_⟩
  · intro hk
    simp [load, hE, hP, hEC, hAT, hk]
  · intro raw hk hdk
    simp [load, hE, hP, hEC, hAT, hk, hdk]
  · intro raw k hk hdk hec hat
    simp [load, load_ec_step, load_at_step, hE, hP, hEC, hAT, hk, hdk, hec, hat]
  · intro raw k ecraw hk hdk hec hpc
    simp [load, load_ec_step, hE, hP, hEC, hAT, hk, hdk, hec, hpc]
  · intro raw k atraw hk hdk hec hat hpc
    simp [load, load_ec_step, load_at_step, hE, hP, hEC, hAT, hk, hdk, hec,
      hat, hpc]
  · intro raw k ecraw c atraw hk hdk hec hpec hat hpat
    simp [load, load_ec_step, load_at_step, hE, hP, hEC, hAT, hk, hdk, hec,
      hpec, hat, hpat]
  · intro raw k ecraw c hk hdk hec hpec hat
    simp [load, load_ec_step, load_at_step, hE, hP, hEC, hAT, hk, hdk, hec,
      hpec, hat]
  · intro raw k atraw c hk hdk hec hat hpat
    simp [load, load_ec_step, load_at_step, hE, hP, hEC, hAT, hk, hdk, hec,
      hat, hpat]
  · intro raw k ecraw c1 atraw c2 hk hdk hec hpec hat hpat
    simp [load, load_ec_step, load_at_step, hE, hP, hEC, hAT, hk, hdk, hec,
      hpec, hat, hpat]

/-- Witness for C2: a fresh instance with a decodable key file and neither
certificate file loads successfully with EC and AT unset, and one with an
itss.at file whose bytes the constructor rejects propagates the failure. -/
theorem C2_load_boundary_witness :
    (load sEmpty { keyFile := some [1], ecFile := none, atFile := none }
      none (fun _ => some k0) (fun _ => none) =
      .ok (true, { sEmpty with PrivateKey := some k0 })) ∧
    (load sEmpty { keyFile := some [1], ecFile := none, atFile := some [2] }
      none (fun _ => some k0) (fun _ => none) = .error .parseError) :=
  ⟨(C2_load_boundary sEmpty
      { keyFile := some [1], ecFile := none, atFile := none }
      (fun _ => some k0) (fun _ => none) rfl rfl rfl rfl).2.2.1
    [1] k0 rfl rfl rfl rfl,
   (C2_load_boundary sEmpty
      { keyFile := some [1], ecFile := none, atFile := some [2] }
      (fun _ => some k0) (fun _ => none) rfl rfl rfl rfl).2.2.2.2.1
    [1] k0 [2] rfl rfl rfl rfl rfl⟩

/-- Claim C3 counterexample: on a state whose EC is unset and a directory with
no persisted EC file, store does not complete successfully: os.unlink on the
missing itss.ec raises FileNotFoundError, refuting the claim at this concrete
input. -/
theorem C3_store_raises_without_stale_file :
    (store sKeyOnly fsEmpty).1 = some .fileNotFound := rfl

/-- Claim C3 amended: provided the key step does not raise, store writes the
raw EC bytes when EC is set; when EC is unset it unlinks the persisted EC
file, which removes it when it exists but raises FileNotFoundError when it
does not; the AT handling, reached when the EC step did not raise, behaves the
same way, and store completes successfully when each unset credential still
has a stale file to remove or both are set. -/
theorem C3_store_fields (s : ITSSState) (fs : FS)
    (hK : s.Engine ≠ none ∨ s.PrivateKey ≠ none) :
    (∀ ec, s.EC = some ec → ((store s fs).2).ecFile = some ec.Data) ∧
    (s.EC = none → fs.ecFile ≠ none → ((store s fs).2).ecFile = none) ∧
    (s.EC = none → fs.ecFile = none → (store s fs).1 = some .fileNotFound) ∧
    ((s.EC ≠ none ∨ fs.ecFile ≠ none) → ∀ a, s.AT = some a →
      ((store s fs).2).atFile = some a.Data) ∧
    ((s.EC ≠ none ∨ fs.ecFile ≠ none) → s.AT = none → fs.atFile ≠ none →
      ((store s fs).2).atFile = none ∧ (store s fs).1 = none) ∧
    ((s.EC ≠ none ∨ fs.ecFile ≠ none) → s.AT = none → fs.atFile = none →
      (store s fs).1 = some .fileNotFound) ∧
    (s.EC ≠ none → s.AT ≠ none → (store s fs).1 = none) := by
  obtain ⟨fs1, hfs1, hec1, hat1⟩ :
      ∃ fs1, store_key_step s fs = .ok fs1 ∧
        fs1.ecFile = fs.ecFile ∧ fs1.atFile = fs.atFile := by
    rcases hEng : s.Engine with _ | u
    · rcases hK with h | h
      · exact absurd hEng h
      · obtain ⟨k, hk⟩ := Option.ne_none_iff_exists'.mp h
        exact ⟨{ fs with keyFile := some (private_bytes k) },
          by simp [store_key_step, hEng, hk], rfl, rfl⟩
    · exact ⟨fs, by simp [store_key_step, hEng], rfl, rfl⟩
  refine ⟨?_, ?_, ?_, ?_, ?_, ?_, ?_⟩
  · intro ec hec
    rcases hat : s.AT with _ | a <;>
      rcases hatf : fs.atFile with _ | b <;>
        simp [store, hfs1, store_ec_step, store_at_step, hec, hat, hat1, hatf]
  · intro hec hecf
    obtain ⟨b, hb⟩ := Option.ne_none_iff_exists'.mp hecf
    rcases hat : s.AT with _ | a <;>
      rcases hatf : fs.atFile with _ | b2 <;>
        simp [store, hfs1, store_ec_step, store_at_step, hec, hec1, hb,
          hat, hat1, hatf]
  · intro hec hecf
    simp [store, hfs1, store_ec_step, hec, hec1, hecf]
  · intro hEC a hat
    rcases hec : s.EC with _ | ec
    · rcases hEC with h | h
      · exact absurd hec h
      · obtain ⟨b, hb⟩ := Option.ne_none_iff_exists'.mp h
        simp [store, hfs1, store_ec_step, store_at_step, hec, hec1, hb, hat]
    · simp [store, hfs1, store_ec_step, store_at_step, hec, hat]
  · intro hEC hat hatf
    obtain ⟨b, hb⟩ := Option.ne_none_iff_exists'.mp hatf
    rcases hec : s.EC with _ | ec
    · rcases hEC with h | h
      · exact absurd hec h
      · obtain ⟨b2, hb2⟩ := Option.ne_none_iff_exists'.mp h
        simp [store, hfs1, store_ec_step, store_at_step, hec, hec1, hb2,
          hat, hat1, hb]
    · simp [store, hfs1, store_ec_step, store_at_step, hec, hat, hat1, hb]
  · intro hEC hat hatf
    rcases hec : s.EC with _ | ec
    · rcases hEC with h | h
      · exact absurd hec h
      · obtain ⟨b2, hb2⟩ := Option.ne_none_iff_exists'.mp h
        simp [store, hfs1, store_ec_step, store_at_step, hec, hec1, hb2,
          hat, hat1, hatf]
    · simp [store, hfs1, store_ec_step, store_at_step, hec, hat, hat1, hatf]
  · intro hec hat
    obtain ⟨ec, hec2⟩ := Option.ne_none_iff_exists'.mp hec
    obtain ⟨a, hat2⟩ := Option.ne_none_iff_exists'.mp hat
    simp [store, hfs1, store_ec_step, store_at_step, hec2, hat2]

/-- Witness for C3: with the key and both credentials set, store writes both
certificate files and completes without an exception. -/
theorem C3_store_fields_witness :
    ((store sFull fsEmpty).2).ecFile = some c0.Data ∧
    ((store sFull fsEmpty).2).atFile = some c0.Data ∧
    (store sFull fsEmpty).1 = none := by
  have h := C3_store_fields sFull fsEmpty (Or.inr (by simp [sFull, sKeyOnly]))
  exact ⟨h.1 c0 rfl, h.2.2.2.1 (Or.inl (by simp [sFull])) c0 rfl,
    h.2.2.2.2.2.2 (by simp [sFull]) (by simp [sFull])⟩

/-- Claim C5: for both request encoders, the bytes handed to the ECDSA signing
routine are exactly the 0xa0-tagged signer identifier block followed by the
0xa1-tagged to-be-signed block; the signing input does not depend on the
signing or signature-encoding functions, and the final message appends the
0xa2-tagged signature block strictly after the signing input, so the signature
block is never part of its own signing input. -/
theorem C5_signing_input_first_two_blocks (sid_enc tbs_enc acr_enc : Bytes)
    (sign sign2 : Bytes → Sig) (sig_enc : Sig → Bytes) :
    (enroll_encode sid_enc tbs_enc sign sig_enc).1 =
      tag_block 160 sid_enc ++ tag_block 161 tbs_enc ∧
    (enroll_encode sid_enc tbs_enc sign sig_enc).2 =
      encode_der_SEQUENCE
        ((enroll_encode sid_enc tbs_enc sign sig_enc).1 ++
          tag_block 162
            (sig_enc (sign (enroll_encode sid_enc tbs_enc sign sig_enc).1))) ∧
    (enroll_encode sid_enc tbs_enc sign sig_enc).1 =
      (enroll_encode sid_enc tbs_enc sign2 sig_enc).1 ∧
    (authorize_encode sid_enc acr_enc sign sig_enc).1 =
      tag_block 160 sid_enc ++
        (161 :: (encode_der_length (tag_block 160 acr_enc).length ++
          tag_block 160 acr_enc)) ∧
    (authorize_encode sid_enc acr_enc sign sig_enc).2 =
      encode_der_SEQUENCE
        ((authorize_encode sid_enc acr_enc sign sig_enc).1 ++
          tag_block 162
            (sig_enc (sign (authorize_encode sid_enc acr_enc sign sig_enc).1))) ∧
    (authorize_encode sid_enc acr_enc sign sig_enc).1 =
      (authorize_encode sid_enc acr_enc sign2 sig_enc).1 :=
  ⟨rfl, rfl, rfl, rfl, rfl, rfl⟩

/-- Claim C6: in the authorization request the chosen variant block is first
tag-wrapped with 0xa0 replacing the leading codec byte and the result is then
length-prefixed under the outer tag 0xa1, and reading the DER length prefix
back recovers exactly the inner tag-wrapped block; the enrollment encoder
embeds its payload under 0xa1 directly, with no inner wrap and no length
prefix. -/
theorem C6_authorize_double_wrap (sid_enc acr_enc tbs_enc : Bytes)
    (sign : Bytes → Sig) (sig_enc : Sig → Bytes) :
    (authorize_encode sid_enc acr_enc sign sig_enc).1 =
      tag_block 160 sid_enc ++
        (161 :: (encode_der_length (tag_block 160 acr_enc).length ++
          tag_block 160 acr_enc)) ∧
    decode_der_length
        (encode_der_length (tag_block 160 acr_enc).length ++
          tag_block 160 acr_enc) =
      some ((tag_block 160 acr_enc).length, tag_block 160 acr_enc) ∧
    (enroll_encode sid_enc tbs_enc sign sig_enc).1 =
      tag_block 160 sid_enc ++ tag_block 161 tbs_enc :=
  ⟨rfl, decode_encode_der_length _ _, rfl⟩

/-- Claim C7: a successful resolution populates the in-memory Certs dict, so a
second call with the same digest is answered by the memory tier: it returns the
same certificate, with identical digest and bytes, and leaves the object state
and the world, its disk and network counters included, unchanged. -/
theorem C7_resolve_idempotent_no_io (parseCert : Bytes → Option Certificate)
    (s : ITSSState) (w : World) (digest : Bytes) (cert : Certificate)
    (s1 : ITSSState) (w1 : World)
    (h : get_certificate_by_digest parseCert s w digest = .ok (cert, s1, w1)) :
    get_certificate_by_digest parseCert s1 w1 digest = .ok (cert, s1, w1) := by
  have hmem : dict_find s1.Certs digest = some cert := by
    unfold get_certificate_by_digest at h
    dsimp only at h
    split at h
    · rename_i c hc
      simp only [Except.ok.injEq, Prod.mk.injEq] at h
      obtain ⟨rfl, rfl, rfl⟩ := h
      exact hc
    · split at h
      · rename_i data hd
        split at h
        · simp at h
        · rename_i c2 hp
          simp only [Except.ok.injEq, Prod.mk.injEq] at h
          obtain ⟨rfl, h2, h3⟩ := h
          rw [← h2]
          simpa using dict_find_insert s.Certs digest c2
      · split at h
        · simp at h
        · rename_i content hn
          split at h
          · simp at h
          · rename_i c2 hp
            simp only [Except.ok.injEq, Prod.mk.injEq] at h
            obtain ⟨rfl, h2, h3⟩ := h
            rw [← h2]
            simpa using dict_find_insert s.Certs digest c2
  unfold get_certificate_by_digest
  rw [hmem]

/-- Witness for C7: resolving the sample digest from the disk tier caches it,
and the second call returns it from memory with the world unchanged. -/
theorem C7_resolve_idempotent_witness :
    get_certificate_by_digest pc0 sCached w0r [1, 2] = .ok (c0, sCached, w0r) :=
  C7_resolve_idempotent_no_io pc0 sEmpty w0 [1, 2] c0 sCached w0r rfl

/-- Claim C8: every failure of the datagram-processing body, at parse, resolve
or verify, is caught at the handler boundary: the handler returns normally with
the error logged and the state as it was, and a successful body has its payload
reported; no exception of the body propagates out of datagram_received. -/
theorem C8_datagram_received_never_propagates
    (parseMsg : Bytes → Option SecureMessage)
    (parseCert : Bytes → Option Certificate)
    (checkSig : SecureMessage → Certificate → Bool)
    (s : ITSSState) (w : World) (data : Bytes) :
    (∀ e, process_datagram parseMsg parseCert checkSig s w data = .error e →
      datagram_received parseMsg parseCert checkSig s w data =
        (s, w, .errorWhenProcessing)) ∧
    (∀ p s1 w1,
      process_datagram parseMsg parseCert checkSig s w data = .ok (p, s1, w1) →
      datagram_received parseMsg parseCert checkSig s w data =
        (s1, w1, .receivedVerified p)) := by
  constructor
  · intro e h
    simp [datagram_received, h]
  · intro p s1 w1 h
    simp [datagram_received, h]

/-- Witness for C8: a datagram the envelope constructor rejects is logged and
discarded, the handler returning normally with the state unchanged. -/
theorem C8_datagram_received_witness :
    datagram_received (fun _ => none) pc0 (fun _ _ => true) sEmpty w0 [3] =
      (sEmpty, w0, .errorWhenProcessing) :=
  (C8_datagram_received_never_propagates (fun _ => none) pc0 (fun _ _ => true)
      sEmpty w0 [3]).1 .parseError rfl

end CITS
